import Mathlib

/-!
Verification of the QEMU launch-command builder and runner plugins
(`Platforms/Common/Qemu/QemuCommandBuilder.py`,
`Platforms/QemuQ35Pkg/Plugins/QemuRunner/QemuRunner.py`,
`Platforms/QemuSbsaPkg/Plugins/QemuRunner/QemuRunner.py`).

The Python classes are shallowly embedded: the builder object becomes the
structure `QemuCommandBuilder`, each Python method becomes a pure function
from builder to builder (or to `Except String QemuCommandBuilder` when the
method can raise), filesystem probes (`os.path.isfile` / `os.path.isdir`)
become an explicit `FsEntry`-valued oracle parameter, and the current date
used by `with_smbios` becomes an explicit `today` parameter.  Python string
truthiness of optional strings is `pyTruthyOptStr`; duck-typed arguments of
`with_network` are modelled by the small dynamic-value type `PyVal`.
-/

/-- Embedding of the `QemuArchitecture` enum. -/
inductive QemuArchitecture where
  | q35
  | sbsa
  deriving DecidableEq

/-- Result of the `os.path.isfile` / `os.path.isdir` probes for one path:
a regular file, a directory, or neither. -/
inductive FsEntry where
  | file
  | dir
  | other
  deriving DecidableEq

/-- Dynamic (duck-typed) Python values that flow into `with_network` from its
call sites: `None`, booleans, ints, strings, and lists of ints. -/
inductive PyVal where
  | none
  | bool (b : Bool)
  | int (n : Int)
  | str (s : String)
  | intList (xs : List Int)
  deriving DecidableEq

/-- Python truthiness of a `PyVal`. -/
def pyTruthy : PyVal → Bool
  | PyVal.none => false
  | PyVal.bool b => b
  | PyVal.int n => decide (n ≠ 0)
  | PyVal.str s => decide (s ≠ "")
  | PyVal.intList xs => decide (xs ≠ [])

/-- Python `str()` of a `PyVal` (as used by f-string substitution). -/
def pyStr : PyVal → String
  | PyVal.none => "None"
  | PyVal.bool b => if b then "True" else "False"
  | PyVal.int n => toString n
  | PyVal.str s => s
  | PyVal.intList xs => "[" ++ String.intercalate ", " (xs.map toString) ++ "]"

/-- Python iteration over a `PyVal` (`for port in forward_ports`): lists and
strings are iterable, `None` / booleans / ints raise a `TypeError`. -/
def pyIter : PyVal → Except String (List PyVal)
  | PyVal.intList xs => Except.ok (xs.map PyVal.int)
  | PyVal.str s => Except.ok (s.toList.map (fun c => PyVal.str (String.mk [c])))
  | _ => Except.error "TypeError: object is not iterable"

/-- Python truthiness of an optional string (`if x:` where `x` is
`None` or a `str`): `None` and the empty string are falsy. -/
def pyTruthyOptStr : Option String → Bool
  | Option.none => false
  | some s => decide (s ≠ "")

/-- Python `str()` of an optional string: `str(None) = "None"`. -/
def pyStrOptStr : Option String → String
  | Option.none => "None"
  | some s => s

/-- Split a character list on a separator character, Python `str.split(sep)`
style (an empty input yields one empty component). -/
def splitChars (sep : Char) : List Char → List Char → List (List Char)
  | [], acc => [acc.reverse]
  | c :: cs, acc => if c = sep then acc.reverse :: splitChars sep cs [] else splitChars sep cs (c :: acc)

/-- Python `s.split(".")`. -/
def pySplitDot (s : String) : List String :=
  (splitChars '.' s.toList []).map String.mk

/-- ASCII lower-casing, Python `str.lower()` on the ASCII strings that occur
in this program. -/
def lowerStr (s : String) : String :=
  String.mk (s.toList.map Char.toLower)

/-- Python `s.replace('"', "")`: remove every double-quote character. -/
def stripQuotes (s : String) : String :=
  String.mk (s.toList.filter (fun c => c ≠ '"'))

/-- The components of a POSIX `pathlib.PurePath`: split on `/`, dropping empty
components and `.` components. -/
def pathComps (p : List Char) : List (List Char) :=
  (splitChars '/' p []).filter (fun c => !c.isEmpty && c ≠ ['.'])

/-- `pathlib.PurePosixPath(p).name`: the final path component. -/
def pathNameChars (p : List Char) : List Char :=
  (pathComps p).getLastD []

/-- `pathlib.PurePosixPath(p).suffix` over character lists: the extension of
the final component, i.e. `name[i:]` for `i` the index of the last dot,
provided `0 < i < len(name) - 1`, else empty. -/
def pathSuffixChars (p : List Char) : List Char :=
  let name := pathNameChars p
  let parts := splitChars '.' name []
  match parts with
  | [] => []
  | [_] => []
  | _ =>
    let last := parts.getLastD []
    if last = [] then []
    else if name.length - last.length - 1 = 0 then []
    else '.' :: last

/-- `pathlib.Path(p).suffix` (POSIX flavour). -/
def pathSuffix (p : String) : String :=
  String.mk (pathSuffixChars p.toList)

/-- Join path components with `/`. -/
def joinSlash : List (List Char) → List Char
  | [] => []
  | [c] => c
  | c :: cs => c ++ '/' :: joinSlash cs

/-- Whether a path string is absolute. -/
def startsWithSlash (p : String) : Bool :=
  match p.toList with
  | '/' :: _ => true
  | _ => false

/-- `str(pathlib.Path(p))` (POSIX flavour): normalized path text
(duplicate slashes and `.` components collapsed, trailing slash dropped). -/
def posixPathStr (p : String) : String :=
  let comps := pathComps p.toList
  let body := joinSlash comps
  if startsWithSlash p then String.mk ('/' :: body)
  else if body = [] then "." else String.mk body

/-- Embedding of the `QemuCommandBuilder` object state: executable path,
architecture, accumulated argument tokens, the per-category idempotency
flags, and the USB-storage id counter. -/
structure QemuCommandBuilder where
  executable : String
  architecture : QemuArchitecture
  args : List String
  rom_path_added : Bool
  machine_added : Bool
  cpu_added : Bool
  firmware_added : Bool
  usb_controller_added : Bool
  usb_mouse_added : Bool
  usb_keyboard_added : Bool
  usb_storage_index : Nat
  memory_added : Bool
  network_added : Bool
  smbios_added : Bool
  tpm_added : Bool
  display_added : Bool
  gdb_server_added : Bool
  serial_port_added : Bool
  monitor_port_added : Bool
  deriving DecidableEq

/-- `QemuCommandBuilder.__init__`: all flags false, counter 0, and the Q35
baseline tokens (debug console, S3 disable, debug-console io base, debug-exit
device) injected for the Q35 architecture. -/
def QemuCommandBuilder.init (executable : String) (architecture : QemuArchitecture) : QemuCommandBuilder where
  executable := executable
  architecture := architecture
  args :=
    if architecture = QemuArchitecture.q35 then
      ["-debugcon", "stdio",
       "-global", "ICH9-LPC.disable_s3=1",
       "-global", "isa-debugcon.iobase=0x402",
       "-device", "isa-debug-exit,iobase=0xf4,iosize=0x04"]
    else []
  rom_path_added := false
  machine_added := false
  cpu_added := false
  firmware_added := false
  usb_controller_added := false
  usb_mouse_added := false
  usb_keyboard_added := false
  usb_storage_index := 0
  memory_added := false
  network_added := false
  smbios_added := false
  tpm_added := false
  display_added := false
  gdb_server_added := false
  serial_port_added := false
  monitor_port_added := false

/-- `QemuCommandBuilder.build`. -/
def QemuCommandBuilder.build (b : QemuCommandBuilder) : String × List String :=
  (b.executable, b.args)

/-- `with_rom_path`: skip if already added or `rom_dir` falsy; else set the
flag and append `-L str(Path(rom_dir))`. -/
def with_rom_path (b : QemuCommandBuilder) (rom_dir : Option String) : QemuCommandBuilder :=
  if b.rom_path_added = true then b
  else if pyTruthyOptStr rom_dir = false then b
  else { b with rom_path_added := true,
                args := b.args ++ ["-L", posixPathStr (rom_dir.getD "")] }

/-- `with_machine`: skip if already added; Q35 emits `q35,smm=on|off` with an
optional whitelisted accelerator, SBSA emits `sbsa-ref`; if SMM is enabled a
global flash-security property is appended for both architectures. -/
def with_machine (b : QemuCommandBuilder) (smm_enabled : Bool) (accel : Option String) : QemuCommandBuilder :=
  if b.machine_added = true then b
  else
    let machineTok : List String :=
      if b.architecture = QemuArchitecture.q35 then
        let smm := if smm_enabled then "on" else "off"
        let al := lowerStr (accel.getD "")
        let cfg :=
          if pyTruthyOptStr accel = true ∧ (al = "kvm" ∨ al = "tcg" ∨ al = "whpx") then
            "q35,smm=" ++ smm ++ ",accel=" ++ al
          else "q35,smm=" ++ smm
        ["-machine", cfg]
      else ["-machine", "sbsa-ref"]
    let smmTok : List String :=
      if smm_enabled then ["-global", "driver=cfi.pflash01,property=secure,value=on"] else []
    { b with machine_added := true, args := b.args ++ (machineTok ++ smmTok) }

/-- `with_cpu`: skip entirely if already added; else set the flag, emit the
architecture CPU string, and append `-smp str(core_count)` when `core_count`
is truthy. -/
def with_cpu (b : QemuCommandBuilder) (model core_count : Option String) : QemuCommandBuilder :=
  if b.cpu_added = true then b
  else
    let cpuTok : List String :=
      if b.architecture = QemuArchitecture.q35 then
        let cpu_model := if pyTruthyOptStr model = true then model.getD "" else "qemu64"
        ["-cpu", cpu_model ++ ",+rdrand,+umip,+smep,+pdpe1gb,+popcnt,+sse,+sse2,+sse3,+ssse3,+sse4.2,+sse4.1"]
      else ["-cpu", "max,sve=off,sme=off"]
    let smpTok : List String :=
      if pyTruthyOptStr core_count = true then ["-smp", core_count.getD ""] else []
    { b with cpu_added := true, args := b.args ++ (cpuTok ++ smpTok) }

/-- `with_firmware`: skip if already added or `code_fd` falsy; Q35 assigns
flash unit 0 to the code image (read-only) and unit 1 to `str(vars_fd)`
(writable); SBSA assigns unit 0 to the vars image (writable, omitted when
`vars_fd` is falsy) and unit 1 to the code image (read-only). -/
def with_firmware (b : QemuCommandBuilder) (code_fd : String) (vars_fd : Option String) : QemuCommandBuilder :=
  if b.firmware_added = true then b
  else if code_fd = "" then b
  else if b.architecture = QemuArchitecture.q35 then
    { b with firmware_added := true,
             args := b.args ++
               ["-drive", "if=pflash,format=raw,unit=0,file=" ++ code_fd ++ ",readonly=on",
                "-drive", "if=pflash,format=raw,unit=1,file=" ++ pyStrOptStr vars_fd] }
  else
    { b with firmware_added := true,
             args := b.args ++
               ((if pyTruthyOptStr vars_fd = true then
                   ["-drive", "if=pflash,format=raw,unit=0,file=" ++ vars_fd.getD ""]
                 else []) ++
                ["-drive", "if=pflash,format=raw,unit=1,file=" ++ code_fd ++ ",readonly=on"]) }

/-- `with_usb_controller`: idempotent, appends the xHCI controller device. -/
def with_usb_controller (b : QemuCommandBuilder) : QemuCommandBuilder :=
  if b.usb_controller_added = true then b
  else { b with usb_controller_added := true,
                args := b.args ++ ["-device", "qemu-xhci,id=usb"] }

/-- `with_usb_mouse`: idempotent, appends the USB mouse device. -/
def with_usb_mouse (b : QemuCommandBuilder) : QemuCommandBuilder :=
  if b.usb_mouse_added = true then b
  else { b with usb_mouse_added := true,
                args := b.args ++ ["-device", "usb-mouse,id=input0,bus=usb.0,port=1"] }

/-- `with_usb_keyboard`: idempotent, appends the USB keyboard device. -/
def with_usb_keyboard (b : QemuCommandBuilder) : QemuCommandBuilder :=
  if b.usb_keyboard_added = true then b
  else { b with usb_keyboard_added := true,
                args := b.args ++ ["-device", "usb-kbd,id=input1,bus=usb.0,port=2"] }

/-- `with_usb_storage`: not idempotent; no-op if `drive_file` falsy; an absent
id is auto-generated as `usb_storage_<N>` (incrementing the counter); a
regular file mounts directly, a directory mounts as `fat:rw:`, anything else
appends nothing (the counter still advances when the id was auto-generated). -/
def with_usb_storage (fs : String → FsEntry) (b : QemuCommandBuilder)
    (drive_file drive_id : Option String) (drive_format : String) : QemuCommandBuilder :=
  if pyTruthyOptStr drive_file = false then b
  else
    let file := drive_file.getD ""
    let autoId := pyTruthyOptStr drive_id = false
    let id := if autoId then "usb_storage_" ++ toString b.usb_storage_index else drive_id.getD ""
    let idx := if autoId then b.usb_storage_index + 1 else b.usb_storage_index
    match fs file with
    | FsEntry.file =>
      { b with usb_storage_index := idx,
               args := b.args ++
                 ["-drive", "file=" ++ file ++ ",format=" ++ drive_format ++ ",media=disk,if=none,id=" ++ id,
                  "-device", "usb-storage,bus=usb.0,drive=" ++ id] }
    | FsEntry.dir =>
      { b with usb_storage_index := idx,
               args := b.args ++
                 ["-drive", "file=fat:rw:" ++ file ++ ",format=" ++ drive_format ++ ",media=disk,if=none,id=" ++ id,
                  "-device", "usb-storage,bus=usb.0,drive=" ++ id] }
    | FsEntry.other => { b with usb_storage_index := idx }

/-- `with_virtual_drive`: no-op if falsy; a file mounts as a virtio drive, a
directory as a read-write FAT volume, anything else only logs. -/
def with_virtual_drive (fs : String → FsEntry) (b : QemuCommandBuilder)
    (virtual_drive : Option String) : QemuCommandBuilder :=
  if pyTruthyOptStr virtual_drive = false then b
  else
    let v := virtual_drive.getD ""
    match fs v with
    | FsEntry.file => { b with args := b.args ++ ["-drive", "file=" ++ v ++ ",if=virtio"] }
    | FsEntry.dir => { b with args := b.args ++ ["-drive", "file=fat:rw:" ++ v ++ ",format=raw,media=disk"] }
    | FsEntry.other => b

/-- `with_memory`: idempotent, appends `-m str(size_mb)`. -/
def with_memory (b : QemuCommandBuilder) (size_mb : Int) : QemuCommandBuilder :=
  if b.memory_added = true then b
  else { b with memory_added := true, args := b.args ++ ["-m", toString size_mb] }

/-- `with_os_storage`: no-op if the path is falsy; dispatches on
`Path(p).suffix.lower().replace('"', "")`: `.vhd` is raw, `.qcow2` is qcow2,
`.iso` attaches a CD-ROM; any other extension raises
`Exception("Unknown OS storage type: ...")` before any token is appended.
Non-ISO formats attach via NVMe on Q35 and via AHCI + IDE on SBSA. -/
def with_os_storage (b : QemuCommandBuilder) (path_to_os : Option String) : Except String QemuCommandBuilder :=
  if pyTruthyOptStr path_to_os = false then Except.ok b
  else
    let p := path_to_os.getD ""
    let ext := stripQuotes (lowerStr (pathSuffix p))
    if ext = ".iso" then Except.ok { b with args := b.args ++ ["-cdrom", p] }
    else if ext = ".vhd" ∨ ext = ".qcow2" then
      let fmt := if ext = ".vhd" then "raw" else "qcow2"
      if b.architecture = QemuArchitecture.q35 then
        Except.ok { b with args := b.args ++
          ["-drive", "file=" ++ p ++ ",format=" ++ fmt ++ ",if=none,id=os_nvme",
           "-device", "nvme,serial=nvme-1,drive=os_nvme"] }
      else
        Except.ok { b with args := b.args ++
          ["-drive", "file=" ++ p ++ ",format=" ++ fmt ++ ",if=none,id=os_disk",
           "-device", "ahci,id=ahci",
           "-device", "ide-hd,drive=os_disk,bus=ahci.0"] }
    else Except.error ("Unknown OS storage type: " ++ p)

/-- `with_network`: idempotent; a falsy `enabled` appends `-net none`; else a
`user,id=net0` netdev accumulating one `hostfwd` clause per entry of the
(duck-typed) `forward_ports` when it is truthy, followed by a virtio or e1000
device depending on `use_virtio`.  Iterating a truthy non-iterable
`forward_ports` raises a `TypeError`. -/
def with_network (b : QemuCommandBuilder) (enabled forward_ports use_virtio : PyVal) : Except String QemuCommandBuilder :=
  if b.network_added = true then Except.ok b
  else if pyTruthy enabled = false then
    Except.ok { b with network_added := true, args := b.args ++ ["-net", "none"] }
  else
    match (if pyTruthy forward_ports = true then pyIter forward_ports else Except.ok []) with
    | Except.error e => Except.error e
    | Except.ok ports =>
      let cfg := ports.foldl (fun acc p => acc ++ ",hostfwd=tcp::" ++ pyStr p ++ "-:" ++ pyStr p) "user,id=net0"
      let dev := if pyTruthy use_virtio = true then ["-device", "virtio-net-pci,netdev=net0"]
                 else ["-device", "e1000,netdev=net0"]
      Except.ok { b with network_added := true, args := b.args ++ (["-netdev", cfg] ++ dev) }

/-- The architecture-specific SMBIOS default table of `with_smbios`, with the
live-computed date supplied as `today`. -/
def smbiosDefaults (arch : QemuArchitecture) (today : String) (k : String) : String :=
  if k = "smbios0_vendor" then "Patina"
  else if k = "smbios0_version" then
    (if arch = QemuArchitecture.q35 then "patina-q35-patched" else "patina-sbsa-patched")
  else if k = "smbios0_date" then today
  else if k = "smbios1_manufacturer" then "OpenDevicePartnership"
  else if k = "smbios1_product" then
    (if arch = QemuArchitecture.q35 then "QEMU Q35" else "QEMU SBSA")
  else if k = "smbios1_family" then "QEMU"
  else if k = "smbios1_version" then "10.0.0"
  else if k = "smbios1_serial" then "42-42-42-42"
  else if k = "smbios1_uuid" then "99fb60e2-181c-413a-a3cf-0a5fea8d87b0"
  else if k = "smbios3_manufacturer" then "OpenDevicePartnership"
  else if k = "smbios3_serial" then
    (if arch = QemuArchitecture.q35 then "40-41-42-43" else "42-42-42-42")
  else if k = "smbios3_asset" then
    (if arch = QemuArchitecture.q35 then "Q35" else "SBSA")
  else if k = "smbios3_sku" then
    (if arch = QemuArchitecture.q35 then "Q35" else "SBSA")
  else ""

/-- Lookup in the defaults-updated-by-overrides dictionary of `with_smbios`
(`defaults.update(smbios_values)`; a later duplicate key wins). -/
def smbiosGet (arch : QemuArchitecture) (today : String)
    (overrides : Option (List (String × String))) (k : String) : String :=
  match overrides with
  | Option.none => smbiosDefaults arch today k
  | some ov =>
    match ov.reverse.find? (fun kv => kv.1 == k) with
    | some kv => kv.2
    | Option.none => smbiosDefaults arch today k

/-- `with_smbios`: idempotent; merges overrides into the architecture default
table and emits the three fixed-shape `-smbios` records. -/
def with_smbios (b : QemuCommandBuilder) (today : String)
    (smbios_values : Option (List (String × String))) : QemuCommandBuilder :=
  if b.smbios_added = true then b
  else
    let g := smbiosGet b.architecture today smbios_values
    { b with smbios_added := true,
             args := b.args ++
               ["-smbios",
                "type=0,vendor=\"" ++ g "smbios0_vendor" ++ "\",version=\"" ++ g "smbios0_version" ++
                  "\",date=\"" ++ g "smbios0_date" ++ "\",uefi=on",
                "-smbios",
                "type=1,manufacturer=\"" ++ g "smbios1_manufacturer" ++ "\",product=\"" ++ g "smbios1_product" ++
                  "\",family=\"" ++ g "smbios1_family" ++ "\",version=\"" ++ g "smbios1_version" ++
                  "\",serial=\"" ++ g "smbios1_serial" ++ "\",uuid=" ++ g "smbios1_uuid",
                "-smbios",
                "type=3,manufacturer=\"" ++ g "smbios3_manufacturer" ++ "\",serial=\"" ++ g "smbios3_serial" ++
                  "\",asset=\"" ++ g "smbios3_asset" ++ "\",sku=\"" ++ g "smbios3_sku" ++
                  "\",version=\"" ++ g "smbios3_version" ++ "\""] }

/-- `with_tpm`: skip if already added or `tpm_dev` is `None` (an empty string
is not `None` and is not skipped); appends the chardev socket binding and the
TPM backend binding, plus the `tpm-tis` interface device on Q35 only. -/
def with_tpm (b : QemuCommandBuilder) (tpm_dev : Option String) : QemuCommandBuilder :=
  if b.tpm_added = true then b
  else
    match tpm_dev with
    | Option.none => b
    | some p =>
      { b with tpm_added := true,
               args := b.args ++
                 (["-chardev", "socket,id=chrtpm,path=" ++ p,
                   "-tpmdev", "emulator,id=tpm0,chardev=chrtpm"] ++
                  (if b.architecture = QemuArchitecture.q35 then
                     ["-device", "tpm-tis,tpmdev=tpm0"] else [])) }

/-- `with_display`: idempotent; disabled appends `-display none`, enabled
appends `-vga cirrus` on Q35 and nothing on SBSA. -/
def with_display (b : QemuCommandBuilder) (enabled : Bool) : QemuCommandBuilder :=
  if b.display_added = true then b
  else
    { b with display_added := true,
             args := b.args ++
               (if enabled = false then ["-display", "none"]
                else if b.architecture = QemuArchitecture.q35 then ["-vga", "cirrus"]
                else []) }

/-- `with_gdb_server`: skip if already added; a truthy port sets the flag and
appends the GDB endpoint, a falsy port leaves the flag unset. -/
def with_gdb_server (b : QemuCommandBuilder) (port : Option String) (ip : String) : QemuCommandBuilder :=
  if b.gdb_server_added = true then b
  else if pyTruthyOptStr port = true then
    { b with gdb_server_added := true,
             args := b.args ++ ["-gdb", "tcp:" ++ ip ++ ":" ++ port.getD ""] }
  else b

/-- `with_serial_port`: idempotent; a truthy port appends a TCP server serial
endpoint; otherwise serial goes to stdio with one extra `file:` sink per
entry of `log_files`. -/
def with_serial_port (b : QemuCommandBuilder) (port : Option String)
    (log_files : Option (List String)) (ip : String) : QemuCommandBuilder :=
  if b.serial_port_added = true then b
  else
    { b with serial_port_added := true,
             args := b.args ++
               (if pyTruthyOptStr port = true then
                  ["-serial", "tcp:" ++ ip ++ ":" ++ port.getD "" ++ ",server,nowait"]
                else
                  ["-serial", "stdio"] ++
                    ((log_files.getD []).map (fun f => ["-serial", "file:" ++ f])).flatten) }

/-- `with_monitor_port`: skip if already added; a truthy port sets the flag
and appends the monitor endpoint, a falsy port leaves the flag unset. -/
def with_monitor_port (b : QemuCommandBuilder) (port : Option String) (ip : String) : QemuCommandBuilder :=
  if b.monitor_port_added = true then b
  else if pyTruthyOptStr port = true then
    { b with monitor_port_added := true,
             args := b.args ++ ["-monitor", "tcp:" ++ ip ++ ":" ++ port.getD "" ++ ",server,nowait"] }
  else b

/-- `with_shutdown_from_guest`: no flag; appends the debug-exit device when
enabled on Q35. -/
def with_shutdown_from_guest (b : QemuCommandBuilder) (shutdown : Bool) : QemuCommandBuilder :=
  if shutdown = true ∧ b.architecture = QemuArchitecture.q35 then
    { b with args := b.args ++ ["-device", "isa-debug-exit,iobase=0xf4,iosize=0x04"] }
  else b

/-- `with_custom`: appends arbitrary tokens verbatim, no flag. -/
def with_custom (b : QemuCommandBuilder) (xs : List String) : QemuCommandBuilder :=
  if xs = [] then b else { b with args := b.args ++ xs }

/-- Match a literal character sequence at the head of the input, returning the
rest on success. -/
def dropLiteral : List Char → List Char → Option (List Char)
  | [], cs => some cs
  | _ :: _, [] => Option.none
  | p :: ps, c :: cs => if p = c then dropLiteral ps cs else Option.none

/-- Python whitespace class `\s` (ASCII part, as produced by QEMU output). -/
def pyIsSpace (c : Char) : Bool :=
  c = ' ' || c = '\t' || c = '\n' || c = '\x0b' || c = '\x0c' || c = '\r'

/-- A character matched by the class `[\d.]`. -/
def isVerChar (c : Char) : Bool :=
  c.isDigit || c = '.'

/-- `re.search(r"version\s*([\d.]+)", res)`: the leftmost position where the
literal `version` followed by optional whitespace is followed by at least one
digit-or-dot character; returns the (greedy) captured group. -/
def findVersionMatch : List Char → Option (List Char)
  | [] => Option.none
  | c :: cs =>
    match dropLiteral "version".toList (c :: cs) with
    | some rest =>
      let digits := (rest.dropWhile pyIsSpace).takeWhile isVerChar
      if digits.isEmpty then findVersionMatch cs else some digits
    | Option.none => findVersionMatch cs

/-- `QemuRunner.QueryQemuVersion` (identical logic in the Q35 and SBSA
plugins), with the external `RunCmd` invocation represented by its exit code
and captured output: returns `None` for a `None` executable or a non-zero
exit code; otherwise takes `.group(1)` of the regex search — which raises an
`AttributeError` when the search found nothing — and splits it on dots. -/
def QueryQemuVersion (exec : Option String) (cmdRet : Int) (cmdOut : String) :
    Except String (Option (List String)) :=
  match exec with
  | Option.none => Except.ok Option.none
  | some _ =>
    if cmdRet ≠ 0 then Except.ok Option.none
    else
      match findVersionMatch cmdOut.toList with
      | Option.none => Except.error "AttributeError"
      | some g => Except.ok (some (pySplitDot (String.mk g)))

/-- Exit-code normalization of `QemuRunner.Runner` in the Q35 plugin
(`if ret == 0xC0000005 or ret == 33: ret = 0` followed by
`if ret == 0x8B and qemu_version[0] == "4": ret = 0`): subscripting a `None`
or empty probed version raises, modelled as `Except.error`. -/
def normalizeExitQ35 (ret : Int) (qemu_version : Option (List String)) : Except String Int :=
  let r1 := if ret = 0xC0000005 ∨ ret = 33 then 0 else ret
  if r1 = 0x8B then
    match qemu_version with
    | Option.none => Except.error "TypeError"
    | some [] => Except.error "IndexError"
    | some (v0 :: _) => Except.ok (if v0 = "4" then 0 else r1)
  else Except.ok r1

/-- Exit-code normalization of `QemuRunner.Runner` in the SBSA plugin: as the
Q35 one but only `0xC0000005` is unconditionally remapped (no `33` case). -/
def normalizeExitSbsa (ret : Int) (qemu_version : Option (List String)) : Except String Int :=
  let r1 := if ret = 0xC0000005 then 0 else ret
  if r1 = 0x8B then
    match qemu_version with
    | Option.none => Except.error "TypeError"
    | some [] => Except.error "IndexError"
    | some (v0 :: _) => Except.ok (if v0 = "4" then 0 else r1)
  else Except.ok r1

/-- The `forward_ports` computation of the Q35 `Runner`: `None` unless
`ENABLE_NETWORK` is true and `DFCI_VAR_STORE` is truthy, in which case it is
the list `[8270, 8271]`. -/
def q35_forward_ports (enable_network : Bool) (dfci_var_store : Option String) : PyVal :=
  if enable_network = true then
    if pyTruthyOptStr dfci_var_store = true then PyVal.intList [8270, 8271] else PyVal.none
  else PyVal.none

/-- The Q35 `Runner`'s network step `.with_network(forward_ports, use_virtio)`:
two positional arguments, so the forward-ports value lands in the `enabled`
parameter, the `use_virtio` boolean lands in the `forward_ports` parameter,
and the builder's `use_virtio` parameter keeps its default `False`. -/
def q35_with_network_call (b : QemuCommandBuilder) (forward_ports : PyVal) (use_virtio : Bool) :
    Except String QemuCommandBuilder :=
  with_network b forward_ports (PyVal.bool use_virtio) (PyVal.bool false)

/-- A freshly constructed Q35 builder used as a concrete test state. -/
def bQ : QemuCommandBuilder :=
  QemuCommandBuilder.init "qemu-system-x86_64" QemuArchitecture.q35

/-- A freshly constructed SBSA builder used as a concrete test state. -/
def bS : QemuCommandBuilder :=
  QemuCommandBuilder.init "qemu-system-aarch64" QemuArchitecture.sbsa

/-- A Q35 builder state with every idempotency flag already set. -/
def bAllFlags : QemuCommandBuilder :=
  { bQ with rom_path_added := true, machine_added := true, cpu_added := true,
            firmware_added := true, usb_controller_added := true, usb_mouse_added := true,
            usb_keyboard_added := true, memory_added := true, network_added := true,
            smbios_added := true, tpm_added := true, display_added := true,
            gdb_server_added := true, serial_port_added := true, monitor_port_added := true }

/-- The argument tokens of a builder-returning step that can raise: the
result's tokens on the value branch, the supplied pre-call tokens on the
exception branch (an exception aborts the run with no surviving builder). -/
def argsOf (r : Except String QemuCommandBuilder) (dflt : List String) : List String :=
  match r with
  | Except.ok b => b.args
  | Except.error _ => dflt

/-- C1 counterexample: on the Q35 platform a raw exit code of `33` — which is
neither the access-violation value `0xC0000005` nor the segmentation-fault
value `0x8B` — is remapped to `0` instead of propagating unchanged; and with a
null probed version a segmentation-fault exit code makes the normalization
raise a `TypeError` (subscripting `None`) instead of returning the code
unchanged. -/
theorem c1_counterexample :
    (normalizeExitQ35 33 (some ["6", "2", "0"]) = Except.ok 0
      ∧ (33 : Int) ≠ 0xC0000005 ∧ (33 : Int) ≠ 0x8B ∧ (33 : Int) ≠ 0)
  ∧ normalizeExitQ35 0x8B Option.none = Except.error "TypeError" :=
  ⟨⟨rfl, by decide, by decide, by decide⟩, rfl⟩

/-- C1 (amended): for every probed version with a head component, both
platforms remap `0xC0000005` to 0 unconditionally and Q35 additionally remaps
`33` to 0 unconditionally; `0x8B` is remapped to 0 if and only if the probed
major-version component equals `"4"`, and otherwise propagates unchanged;
every other raw exit code propagates unchanged; with a null probed version a
raw `0x8B` raises a `TypeError` rather than returning, while every other
non-remapped code still propagates unchanged. -/
theorem c1_amended_exit_normalization (ret : Int) (v0 : String) (rest : List String)
    (hav : ret ≠ 0xC0000005) (h33 : ret ≠ 33) (hsf : ret ≠ 0x8B) :
    (normalizeExitQ35 0xC0000005 (some (v0 :: rest)) = Except.ok 0
      ∧ normalizeExitSbsa 0xC0000005 (some (v0 :: rest)) = Except.ok 0
      ∧ normalizeExitQ35 33 (some (v0 :: rest)) = Except.ok 0)
  ∧ (normalizeExitQ35 0x8B (some (v0 :: rest)) = Except.ok 0 ↔ v0 = "4")
  ∧ (normalizeExitSbsa 0x8B (some (v0 :: rest)) = Except.ok 0 ↔ v0 = "4")
  ∧ (v0 ≠ "4" → normalizeExitQ35 0x8B (some (v0 :: rest)) = Except.ok 0x8B)
  ∧ (v0 ≠ "4" → normalizeExitSbsa 0x8B (some (v0 :: rest)) = Except.ok 0x8B)
  ∧ normalizeExitQ35 ret (some (v0 :: rest)) = Except.ok ret
  ∧ normalizeExitSbsa ret (some (v0 :: rest)) = Except.ok ret
  ∧ normalizeExitQ35 0x8B Option.none = Except.error "TypeError"
  ∧ normalizeExitSbsa 0x8B Option.none = Except.error "TypeError"
  ∧ normalizeExitQ35 ret Option.none = Except.ok ret
  ∧ normalizeExitSbsa ret Option.none = Except.ok ret := by
  refine ⟨⟨rfl, rfl, rfl⟩, ?_, ?_, ?_, ?_, ?_, ?_, rfl, rfl, ?_, ?_⟩
  · by_cases h : v0 = "4" <;> simp [normalizeExitQ35, h]
  · by_cases h : v0 = "4" <;> simp [normalizeExitSbsa, h]
  · intro h; simp [normalizeExitQ35, h]
  · intro h; simp [normalizeExitSbsa, h]
  · simp [normalizeExitQ35, hav, h33, hsf]
  · simp [normalizeExitSbsa, hav, hsf]
  · simp [normalizeExitQ35, hav, h33, hsf]
  · simp [normalizeExitSbsa, hav, hsf]

/-- C1 witness: the amended normalization evaluated at the concrete raw exit
code 7 with probed version `["6"]`. -/
theorem c1_amended_witness :
    (7 : Int) ≠ 0xC0000005 ∧ (7 : Int) ≠ 33 ∧ (7 : Int) ≠ 0x8B
  ∧ normalizeExitQ35 7 (some ["6"]) = Except.ok 7
  ∧ normalizeExitSbsa 0x8B (some ["6"]) = Except.ok 0x8B := by
  refine ⟨by decide, by decide, by decide, ?_, ?_⟩
  · exact (c1_amended_exit_normalization 7 "6" [] (by decide) (by decide) (by decide)).2.2.2.2.2.1
  · exact (c1_amended_exit_normalization 7 "6" [] (by decide) (by decide) (by decide)).2.2.2.2.1 (by decide)

/-- C2 counterexample: after a first `with_cpu` call set the CPU idempotency
flag, a second call supplying core count `"8"` returns the builder unchanged
and appends no `-smp` pair (the token `"8"` never appears). -/
theorem c2_counterexample :
    with_cpu (with_cpu bQ Option.none (some "4")) Option.none (some "8")
      = with_cpu bQ Option.none (some "4")
  ∧ "8" ∉ (with_cpu (with_cpu bQ Option.none (some "4")) Option.none (some "8")).args :=
  ⟨rfl, by decide⟩

/-- C2 (amended): when the CPU idempotency flag is not yet set, `with_cpu`
with a truthy core count appends exactly `-smp <count>` after the CPU-model
tokens; when the flag is already set, the whole call — core count included —
is a no-op returning the unchanged builder. -/
theorem c2_amended_core_count (b : QemuCommandBuilder) (model : Option String) (s : String)
    (hflag : b.cpu_added = false) (hs : s ≠ "") :
    (with_cpu b model (some s)).args = (with_cpu b model Option.none).args ++ ["-smp", s]
  ∧ ∀ (b' : QemuCommandBuilder) (m c : Option String), b'.cpu_added = true → with_cpu b' m c = b' := by
  constructor
  · simp [with_cpu, hflag, pyTruthyOptStr, hs]
  · intro b' m c h; simp [with_cpu, h]

/-- C2 witness: the amended statement at a fresh Q35 builder with core count
`"4"`. -/
theorem c2_amended_witness :
    bQ.cpu_added = false ∧ ("4" : String) ≠ ""
  ∧ ((with_cpu bQ Option.none (some "4")).args
        = (with_cpu bQ Option.none Option.none).args ++ ["-smp", "4"]
     ∧ ∀ (b' : QemuCommandBuilder) (m c : Option String), b'.cpu_added = true → with_cpu b' m c = b') :=
  ⟨rfl, by decide, c2_amended_core_count bQ Option.none "4" rfl (by decide)⟩

/-- C3 counterexample: with a present executable and a zero exit status but
captured output containing no version pattern, `QueryQemuVersion` raises an
`AttributeError` (from `.group(1)` on a failed search) instead of returning
null. -/
theorem c3_counterexample :
    QueryQemuVersion (some "qemu-system-x86_64") 0 "QEMU emulator" = Except.error "AttributeError"
  ∧ QueryQemuVersion (some "qemu-system-x86_64") 0 "QEMU emulator" ≠ Except.ok Option.none := by
  refine ⟨rfl, ?_⟩
  intro h
  rw [show QueryQemuVersion (some "qemu-system-x86_64") 0 "QEMU emulator"
        = Except.error "AttributeError" from rfl] at h
  exact Except.noConfusion h

/-- C3 (amended): `QueryQemuVersion` returns null for a null executable and
for a non-zero exit status of the version-query invocation; when the captured
output contains a `version` pattern it returns the dot-separated components
of the first matched group; but when no pattern occurs it raises an
`AttributeError` rather than returning null. -/
theorem c3_amended_query_version (e : String) (code : Int) (out : String) :
    QueryQemuVersion Option.none code out = Except.ok Option.none
  ∧ (code ≠ 0 → QueryQemuVersion (some e) code out = Except.ok Option.none)
  ∧ (findVersionMatch out.toList = Option.none →
      QueryQemuVersion (some e) 0 out = Except.error "AttributeError")
  ∧ (∀ g, findVersionMatch out.toList = some g →
      QueryQemuVersion (some e) 0 out = Except.ok (some (pySplitDot (String.mk g)))) := by
  refine ⟨rfl, fun h => ?_, fun h => ?_, fun g h => ?_⟩
  · simp [QueryQemuVersion, h]
  · simp only [String.toList] at h
    simp [QueryQemuVersion, h]
  · simp only [String.toList] at h
    simp [QueryQemuVersion, h]

/-- C3 witness: the amended statement at exit code 1 / at exit code 0 with
unparsable output / at exit code 0 with the expected QEMU banner. -/
theorem c3_amended_witness :
    QueryQemuVersion Option.none 0 "x" = Except.ok Option.none
  ∧ QueryQemuVersion (some "qemu") 1 "x" = Except.ok Option.none
  ∧ QueryQemuVersion (some "qemu") 0 "no match here" = Except.error "AttributeError"
  ∧ QueryQemuVersion (some "qemu") 0 "QEMU emulator version 6.2.0\nCopyright (c) 2003-2021"
      = Except.ok (some (pySplitDot (String.mk "6.2.0".toList))) :=
  ⟨(c3_amended_query_version "q" 0 "x").1,
   (c3_amended_query_version "qemu" 1 "x").2.1 (by decide),
   (c3_amended_query_version "qemu" 0 "no match here").2.2.1 (by decide),
   (c3_amended_query_version "qemu" 0 "QEMU emulator version 6.2.0\nCopyright (c) 2003-2021").2.2.2
     "6.2.0".toList (by decide)⟩

/-- C4 counterexample: `with_gdb_server` has an idempotency flag, yet calling
it first with a falsy port (which skips without setting the flag) and then
with port `"1234"` appends the GDB tokens, so the two-call token sequence
differs from the one-call-with-first-arguments sequence. -/
theorem c4_counterexample :
    (with_gdb_server (with_gdb_server bQ Option.none "127.0.0.1") (some "1234") "127.0.0.1").args
      ≠ (with_gdb_server bQ Option.none "127.0.0.1").args := by decide

/-- C4 (amended): for every configuration operation with an idempotency flag,
whenever that flag is set in the builder state — in particular after any
first call that set it — a further call with any arguments is a no-op
returning the unchanged builder (operations whose first call was skipped
without setting the flag, such as a falsy GDB port, apply the later call
normally). -/
theorem c4_amended_flag_suppression (b : QemuCommandBuilder) :
    (b.rom_path_added = true → ∀ d, with_rom_path b d = b)
  ∧ (b.machine_added = true → ∀ s a, with_machine b s a = b)
  ∧ (b.cpu_added = true → ∀ m c, with_cpu b m c = b)
  ∧ (b.firmware_added = true → ∀ c v, with_firmware b c v = b)
  ∧ (b.usb_controller_added = true → with_usb_controller b = b)
  ∧ (b.usb_mouse_added = true → with_usb_mouse b = b)
  ∧ (b.usb_keyboard_added = true → with_usb_keyboard b = b)
  ∧ (b.memory_added = true → ∀ m, with_memory b m = b)
  ∧ (b.network_added = true → ∀ e f u, with_network b e f u = Except.ok b)
  ∧ (b.smbios_added = true → ∀ td v, with_smbios b td v = b)
  ∧ (b.tpm_added = true → ∀ d, with_tpm b d = b)
  ∧ (b.display_added = true → ∀ e, with_display b e = b)
  ∧ (b.gdb_server_added = true → ∀ p ip, with_gdb_server b p ip = b)
  ∧ (b.serial_port_added = true → ∀ p lf ip, with_serial_port b p lf ip = b)
  ∧ (b.monitor_port_added = true → ∀ p ip, with_monitor_port b p ip = b) := by
  refine ⟨fun h d => ?_, fun h s a => ?_, fun h m c => ?_, fun h c v => ?_, fun h => ?_,
    fun h => ?_, fun h => ?_, fun h m => ?_, fun h e f u => ?_, fun h td v => ?_,
    fun h d => ?_, fun h e => ?_, fun h p ip => ?_, fun h p lf ip => ?_, fun h p ip => ?_⟩
  · simp [with_rom_path, h]
  · simp [with_machine, h]
  · simp [with_cpu, h]
  · simp [with_firmware, h]
  · simp [with_usb_controller, h]
  · simp [with_usb_mouse, h]
  · simp [with_usb_keyboard, h]
  · simp [with_memory, h]
  · simp [with_network, h]
  · simp [with_smbios, h]
  · simp [with_tpm, h]
  · simp [with_display, h]
  · simp [with_gdb_server, h]
  · simp [with_serial_port, h]
  · simp [with_monitor_port, h]

/-- C4 witness: every flagged operation applied to a builder state with all
idempotency flags set is a no-op. -/
theorem c4_amended_witness :
    with_rom_path bAllFlags (some "/roms") = bAllFlags
  ∧ with_machine bAllFlags true (some "kvm") = bAllFlags
  ∧ with_cpu bAllFlags (some "qemu64") (some "4") = bAllFlags
  ∧ with_firmware bAllFlags "CODE.fd" (some "VARS.fd") = bAllFlags
  ∧ with_usb_controller bAllFlags = bAllFlags
  ∧ with_usb_mouse bAllFlags = bAllFlags
  ∧ with_usb_keyboard bAllFlags = bAllFlags
  ∧ with_memory bAllFlags 2048 = bAllFlags
  ∧ with_network bAllFlags PyVal.none PyVal.none PyVal.none = Except.ok bAllFlags
  ∧ with_smbios bAllFlags "10/12/2026" Option.none = bAllFlags
  ∧ with_tpm bAllFlags (some "/tpm") = bAllFlags
  ∧ with_display bAllFlags true = bAllFlags
  ∧ with_gdb_server bAllFlags (some "1234") "127.0.0.1" = bAllFlags
  ∧ with_serial_port bAllFlags (some "50001") Option.none "127.0.0.1" = bAllFlags
  ∧ with_monitor_port bAllFlags (some "55556") "127.0.0.1" = bAllFlags := by
  obtain ⟨h1, h2, h3, h4, h5, h6, h7, h8, h9, h10, h11, h12, h13, h14, h15⟩ :=
    c4_amended_flag_suppression bAllFlags
  exact ⟨h1 rfl _, h2 rfl _ _, h3 rfl _ _, h4 rfl _ _, h5 rfl, h6 rfl, h7 rfl,
    h8 rfl _, h9 rfl _ _ _, h10 rfl _ _, h11 rfl _, h12 rfl _, h13 rfl _ _,
    h14 rfl _ _ _, h15 rfl _ _⟩

/-- C5 counterexample: `with_tpm` only skips a `None` socket path, so the
empty-string path is not a no-op: on a fresh Q35 builder it appends the
chardev/tpmdev/tpm-tis tokens with an empty `path=` value. -/
theorem c5_counterexample :
    (with_tpm bQ (some "")).args
      = bQ.args ++ ["-chardev", "socket,id=chrtpm,path=", "-tpmdev", "emulator,id=tpm0,chardev=chrtpm",
                    "-device", "tpm-tis,tpmdev=tpm0"]
  ∧ (with_tpm bQ (some "")).args ≠ bQ.args :=
  ⟨rfl, by decide⟩

/-- C5 (amended): `with_tpm` is a no-op when the TPM flag is already set or
the socket path is `None`; for any non-`None` path — the empty string
included — it appends the character-device socket binding and the TPM backend
binding, plus the `tpm-tis` interface device on Q35. -/
theorem c5_amended_tpm (b : QemuCommandBuilder) (p : String) :
    (b.tpm_added = true → ∀ d, with_tpm b d = b)
  ∧ with_tpm b Option.none = b
  ∧ (b.tpm_added = false →
      (with_tpm b (some p)).args
        = b.args ++ (["-chardev", "socket,id=chrtpm,path=" ++ p,
                      "-tpmdev", "emulator,id=tpm0,chardev=chrtpm"] ++
                     (if b.architecture = QemuArchitecture.q35 then
                        ["-device", "tpm-tis,tpmdev=tpm0"] else []))) := by
  refine ⟨fun h d => by simp [with_tpm, h], ?_, fun h => by simp [with_tpm, h]⟩
  by_cases h : b.tpm_added = true <;> simp [with_tpm, h]

/-- C5 witness: the amended statement at a fresh Q35 builder with the socket
path `/tmp/swtpm.sock`. -/
theorem c5_amended_witness :
    with_tpm bQ Option.none = bQ
  ∧ (with_tpm bQ (some "/tmp/swtpm.sock")).args
      = bQ.args ++ (["-chardev", "socket,id=chrtpm,path=" ++ "/tmp/swtpm.sock",
                     "-tpmdev", "emulator,id=tpm0,chardev=chrtpm"] ++
                    (if bQ.architecture = QemuArchitecture.q35 then
                       ["-device", "tpm-tis,tpmdev=tpm0"] else [])) :=
  ⟨(c5_amended_tpm bQ "/tmp/swtpm.sock").2.1, (c5_amended_tpm bQ "/tmp/swtpm.sock").2.2 rfl⟩

/-- C6: for every non-empty code image (on a builder whose firmware flag is
unset), `with_firmware` emits exactly the per-architecture flash-unit table:
Q35 assigns unit 0 to the code image read-only and unit 1 to the vars value
writable; SBSA assigns unit 0 to the vars image writable — omitting that
drive when vars is absent/falsy — and unit 1 to the code image read-only;
never the reverse. -/
theorem c6_firmware_flash_units (b : QemuCommandBuilder) (code_fd : String) (vars_fd : Option String)
    (hcode : code_fd ≠ "") (hflag : b.firmware_added = false) :
    (b.architecture = QemuArchitecture.q35 →
      (with_firmware b code_fd vars_fd).args
        = b.args ++ ["-drive", "if=pflash,format=raw,unit=0,file=" ++ code_fd ++ ",readonly=on",
                     "-drive", "if=pflash,format=raw,unit=1,file=" ++ pyStrOptStr vars_fd])
  ∧ (b.architecture = QemuArchitecture.sbsa →
      (with_firmware b code_fd vars_fd).args
        = b.args ++ ((if pyTruthyOptStr vars_fd = true then
                        ["-drive", "if=pflash,format=raw,unit=0,file=" ++ vars_fd.getD ""]
                      else []) ++
                     ["-drive", "if=pflash,format=raw,unit=1,file=" ++ code_fd ++ ",readonly=on"])) := by
  constructor <;> intro ha <;> simp [with_firmware, hflag, hcode, ha]

/-- C6 witness: the flash-unit table evaluated on fresh Q35 and SBSA builders
with concrete code and vars images. -/
theorem c6_witness :
    ("CODE.fd" : String) ≠ "" ∧ ("QEMU_EFI.fd" : String) ≠ ""
  ∧ bQ.firmware_added = false ∧ bS.firmware_added = false
  ∧ (with_firmware bQ "CODE.fd" (some "VARS.fd")).args
      = bQ.args ++ ["-drive", "if=pflash,format=raw,unit=0,file=" ++ "CODE.fd" ++ ",readonly=on",
                    "-drive", "if=pflash,format=raw,unit=1,file=" ++ pyStrOptStr (some "VARS.fd")]
  ∧ (with_firmware bS "QEMU_EFI.fd" (some "SECURE_FLASH0.fd")).args
      = bS.args ++ ((if pyTruthyOptStr (some "SECURE_FLASH0.fd") = true then
                       ["-drive", "if=pflash,format=raw,unit=0,file=" ++ (some "SECURE_FLASH0.fd").getD ""]
                     else []) ++
                    ["-drive", "if=pflash,format=raw,unit=1,file=" ++ "QEMU_EFI.fd" ++ ",readonly=on"]) := by
  refine ⟨by decide, by decide, rfl, rfl, ?_, ?_⟩
  · exact (c6_firmware_flash_units bQ "CODE.fd" (some "VARS.fd") (by decide) rfl).1 rfl
  · exact (c6_firmware_flash_units bS "QEMU_EFI.fd" (some "SECURE_FLASH0.fd") (by decide) rfl).2 rfl

/-- C7 counterexample: the path `disk."VHD"` has the (case-insensitively
lowered) file extension `."vhd"`, which is outside the recognized set, yet
`with_os_storage` does not raise: the code additionally strips double-quote
characters from the extension, accepts it as `.vhd`, and appends the NVMe
drive tokens. -/
theorem c7_counterexample :
    lowerStr (pathSuffix "disk.\"VHD\"") ∉ ([".vhd", ".qcow2", ".iso"] : List String)
  ∧ (with_os_storage bQ (some "disk.\"VHD\"")).isOk = true
  ∧ argsOf (with_os_storage bQ (some "disk.\"VHD\"")) []
      = bQ.args ++ ["-drive", "file=disk.\"VHD\",format=raw,if=none,id=os_nvme",
                    "-device", "nvme,serial=nvme-1,drive=os_nvme"] :=
  ⟨by decide, rfl, rfl⟩

/-- C7 (amended): for every truthy OS-storage path whose file extension,
lowercased and with double-quote characters removed, is outside
`{.vhd, .qcow2, .iso}`, `with_os_storage` raises the configuration error
`Unknown OS storage type` — before any token is appended, so no builder state
survives the call. -/
theorem c7_amended_unknown_extension (b : QemuCommandBuilder) (p : String) (hp : p ≠ "")
    (h : stripQuotes (lowerStr (pathSuffix p)) ∉ ([".vhd", ".qcow2", ".iso"] : List String)) :
    with_os_storage b (some p) = Except.error ("Unknown OS storage type: " ++ p) := by
  have h1 : stripQuotes (lowerStr (pathSuffix p)) ≠ ".vhd" := fun hc => h (by simp [hc])
  have h2 : stripQuotes (lowerStr (pathSuffix p)) ≠ ".qcow2" := fun hc => h (by simp [hc])
  have h3 : stripQuotes (lowerStr (pathSuffix p)) ≠ ".iso" := fun hc => h (by simp [hc])
  have hp' : pyTruthyOptStr (some p) = true := by simp [pyTruthyOptStr, hp]
  simp [with_os_storage, hp', h1, h2, h3]

/-- C7 witness: the amended statement at the concrete path `disk.img`. -/
theorem c7_amended_witness :
    ("disk.img" : String) ≠ ""
  ∧ stripQuotes (lowerStr (pathSuffix "disk.img")) ∉ ([".vhd", ".qcow2", ".iso"] : List String)
  ∧ with_os_storage bQ (some "disk.img") = Except.error ("Unknown OS storage type: " ++ "disk.img") :=
  ⟨by decide, by decide, c7_amended_unknown_extension bQ "disk.img" (by decide) (by decide)⟩

/-- C8: every configuration operation of the builder — the non-idempotent and
raw ones included — only ever appends: the token sequence before the call is
a prefix of the token sequence after the call, for all arguments and builder
states (for the two operations that can raise, this is stated of the
surviving builder on the value branch, the exception branch aborting with no
builder). -/
theorem c8_append_only (b : QemuCommandBuilder) :
    (∀ d, b.args <+: (with_rom_path b d).args)
  ∧ (∀ s a, b.args <+: (with_machine b s a).args)
  ∧ (∀ m c, b.args <+: (with_cpu b m c).args)
  ∧ (∀ c v, b.args <+: (with_firmware b c v).args)
  ∧ (b.args <+: (with_usb_controller b).args)
  ∧ (b.args <+: (with_usb_mouse b).args)
  ∧ (b.args <+: (with_usb_keyboard b).args)
  ∧ (∀ fs f i fmt, b.args <+: (with_usb_storage fs b f i fmt).args)
  ∧ (∀ fs v, b.args <+: (with_virtual_drive fs b v).args)
  ∧ (∀ m, b.args <+: (with_memory b m).args)
  ∧ (∀ po, b.args <+: argsOf (with_os_storage b po) b.args)
  ∧ (∀ e f u, b.args <+: argsOf (with_network b e f u) b.args)
  ∧ (∀ td v, b.args <+: (with_smbios b td v).args)
  ∧ (∀ d, b.args <+: (with_tpm b d).args)
  ∧ (∀ e, b.args <+: (with_display b e).args)
  ∧ (∀ p ip, b.args <+: (with_gdb_server b p ip).args)
  ∧ (∀ p lf ip, b.args <+: (with_serial_port b p lf ip).args)
  ∧ (∀ p ip, b.args <+: (with_monitor_port b p ip).args)
  ∧ (∀ s, b.args <+: (with_shutdown_from_guest b s).args)
  ∧ (∀ xs, b.args <+: (with_custom b xs).args) := by
  refine ⟨fun d => ?_, fun s a => ?_, fun m c => ?_, fun c v => ?_, ?_, ?_, ?_,
    fun fs f i fmt => ?_, fun fs v => ?_, fun m => ?_, fun po => ?_, fun e f u => ?_,
    fun td v => ?_, fun d => ?_, fun e => ?_, fun p ip => ?_, fun p lf ip => ?_,
    fun p ip => ?_, fun s => ?_, fun xs => ?_⟩
  · simp only [with_rom_path]
    repeat' split
    all_goals first | exact List.prefix_rfl | exact List.prefix_append _ _
  · simp only [with_machine]
    repeat' split
    all_goals first | exact List.prefix_rfl | exact List.prefix_append _ _
  · simp only [with_cpu]
    repeat' split
    all_goals first | exact List.prefix_rfl | exact List.prefix_append _ _
  · simp only [with_firmware]
    repeat' split
    all_goals first | exact List.prefix_rfl | exact List.prefix_append _ _
  · simp only [with_usb_controller]
    repeat' split
    all_goals first | exact List.prefix_rfl | exact List.prefix_append _ _
  · simp only [with_usb_mouse]
    repeat' split
    all_goals first | exact List.prefix_rfl | exact List.prefix_append _ _
  · simp only [with_usb_keyboard]
    repeat' split
    all_goals first | exact List.prefix_rfl | exact List.prefix_append _ _
  · simp only [with_usb_storage]
    repeat' split
    all_goals first | exact List.prefix_rfl | exact List.prefix_append _ _
  · simp only [with_virtual_drive]
    repeat' split
    all_goals first | exact List.prefix_rfl | exact List.prefix_append _ _
  · simp only [with_memory]
    repeat' split
    all_goals first | exact List.prefix_rfl | exact List.prefix_append _ _
  · simp only [with_os_storage]
    repeat' split
    all_goals first | exact List.prefix_rfl | exact List.prefix_append _ _
  · simp only [with_network]
    repeat' split
    all_goals first | exact List.prefix_rfl | exact List.prefix_append _ _
  · simp only [with_smbios]
    repeat' split
    all_goals first | exact List.prefix_rfl | exact List.prefix_append _ _
  · simp only [with_tpm]
    repeat' split
    all_goals first | exact List.prefix_rfl | exact List.prefix_append _ _
  · simp only [with_display]
    repeat' split
    all_goals first | exact List.prefix_rfl | exact List.prefix_append _ _
  · simp only [with_gdb_server]
    repeat' split
    all_goals first | exact List.prefix_rfl | exact List.prefix_append _ _
  · simp only [with_serial_port]
    repeat' split
    all_goals first | exact List.prefix_rfl | exact List.prefix_append _ _
  · simp only [with_monitor_port]
    repeat' split
    all_goals first | exact List.prefix_rfl | exact List.prefix_append _ _
  · simp only [with_shutdown_from_guest]
    repeat' split
    all_goals first | exact List.prefix_rfl | exact List.prefix_append _ _
  · simp only [with_custom]
    repeat' split
    all_goals first | exact List.prefix_rfl | exact List.prefix_append _ _

/-- C9: in the Q35 runner the network step passes the forward-ports value
positionally into the builder's `enabled` parameter and the `use_virtio`
boolean into its `forward_ports` parameter; consequently, whenever
`ENABLE_NETWORK` is false or `DFCI_VAR_STORE` is falsy, the computed
forward-ports value is `None`, the call appends exactly `-net`, `none`, and
no `hostfwd` clause is emitted — even when `ENABLE_NETWORK` is true. -/
theorem c9_q35_network_disabled (b : QemuCommandBuilder) (en : Bool) (dfci : Option String)
    (uv : Bool) (hb : b.network_added = false)
    (h : en = false ∨ pyTruthyOptStr dfci = false) :
    q35_forward_ports en dfci = PyVal.none
  ∧ q35_with_network_call b (q35_forward_ports en dfci) uv
      = Except.ok { b with network_added := true, args := b.args ++ ["-net", "none"] } := by
  have hfp : q35_forward_ports en dfci = PyVal.none := by
    rcases h with h | h <;> simp [q35_forward_ports, h]
  refine ⟨hfp, ?_⟩
  rw [hfp]
  simp [q35_with_network_call, with_network, hb, pyTruthy]

/-- C9 witness: a fresh Q35 builder with `ENABLE_NETWORK` true but
`DFCI_VAR_STORE` unset, and `use_virtio` true. -/
theorem c9_witness :
    bQ.network_added = false ∧ pyTruthyOptStr Option.none = false
  ∧ (q35_forward_ports true Option.none = PyVal.none
     ∧ q35_with_network_call bQ (q35_forward_ports true Option.none) true
         = Except.ok { bQ with network_added := true, args := bQ.args ++ ["-net", "none"] }) :=
  ⟨rfl, rfl, c9_q35_network_disabled bQ true Option.none true rfl (Or.inr rfl)⟩

/-- C10: on the Q35 architecture, `with_firmware` with a non-empty code image
and an absent (`None`) vars image still appends the unit-1 vars drive token,
with the literal text `None` substituted as the drive's file value, rather
than omitting the drive as the SBSA layout does. -/
theorem c10_q35_vars_none_literal (b : QemuCommandBuilder) (code_fd : String)
    (hcode : code_fd ≠ "") (hflag : b.firmware_added = false)
    (harch : b.architecture = QemuArchitecture.q35) :
    (with_firmware b code_fd Option.none).args
      = b.args ++ ["-drive", "if=pflash,format=raw,unit=0,file=" ++ code_fd ++ ",readonly=on",
                   "-drive", "if=pflash,format=raw,unit=1,file=None"] := by
  simp [with_firmware, hflag, hcode, harch, pyStrOptStr]

/-- C10 witness: a fresh Q35 builder with the concrete code image
`QEMUQ35_CODE.fd` and no vars image. -/
theorem c10_witness :
    ("QEMUQ35_CODE.fd" : String) ≠ "" ∧ bQ.firmware_added = false
  ∧ bQ.architecture = QemuArchitecture.q35
  ∧ (with_firmware bQ "QEMUQ35_CODE.fd" Option.none).args
      = bQ.args ++ ["-drive", "if=pflash,format=raw,unit=0,file=" ++ "QEMUQ35_CODE.fd" ++ ",readonly=on",
                    "-drive", "if=pflash,format=raw,unit=1,file=None"] :=
  ⟨by decide, rfl, rfl, c10_q35_vars_none_literal bQ "QEMUQ35_CODE.fd" (by decide) rfl rfl⟩
